import Mathlib

/-!
Verification of the PX4Gyroscope sample-processing core.

Shallow embedding of `src/lib/drivers/gyroscope/PX4Gyroscope.cpp`
(the `update` / `updateFIFO` pipeline: calibration, clip counting,
trapezoidal integration with gap detection, flush/reset logic).

Modelling conventions:
* `float` values are modelled as exact rationals (`ℚ`); the claims under
  study are structural (which values flow where, which counters move),
  not about rounding of IEEE-754 arithmetic.  The one place where IEEE
  special values are essential (`UpdateClipLimit` dividing by a zero
  scale) uses a dedicated small float domain `FVal` with `inf`/`nan`.
* `uint64` timestamps are `ℕ` (µs), raw `int16` samples are `ℤ`,
  counters are `ℕ`.
* The fixed `int16[16]` FIFO arrays are `List ℤ`; `a[i]` is `a.getD i 0`.
  For a well-formed batch (`1 ≤ N ≤ 16`) every access the C code makes is
  in bounds and the model is exact.  For `N = 0` the C code reads out of
  bounds (`sample.x[N-1]` is `x[-1]`, and `sum(sample.x, N-1)` receives
  length `255` through the `uint8_t` parameter conversion); the model
  returns defaults there, and no theorem relies on those junk values.
* The external windowed integrator used by the single-sample path
  (`_integrator.put`) lives outside this file's source; per the design it
  is an injected collaborator, so its answer for a call is passed in as a
  parameter `putRes : Option (V3 × ℕ)`.
* The uORB publication side effects are modelled as the list of reports a
  call returns; the throttled status publication and the FIFO echo carry
  no claim-relevant state and are omitted from the output list.
* The vibration-metric EMA state (`UpdateVibrationMetrics`) involves
  square roots (vector norms) and is not referenced by any claim; it is
  omitted from the modelled state.
-/

namespace PX4Gyro

/-- A 3-vector of rationals (models `matrix::Vector3f`). -/
structure V3 where
  x : ℚ
  y : ℚ
  z : ℚ
deriving DecidableEq

/-- `Vector3f::zero()`. -/
def V3.zero : V3 := ⟨0, 0, 0⟩

/-- Componentwise sum. -/
def V3.add (a b : V3) : V3 := ⟨a.x + b.x, a.y + b.y, a.z + b.z⟩

/-- Componentwise difference. -/
def V3.sub (a b : V3) : V3 := ⟨a.x - b.x, a.y - b.y, a.z - b.z⟩

/-- Scaling by a scalar on the right (`v * s`). -/
def V3.smul (a : V3) (s : ℚ) : V3 := ⟨a.x * s, a.y * s, a.z * s⟩

/-- A 3×3 matrix, stored by rows (models `matrix::Dcmf`). -/
structure Mat3 where
  r0 : V3
  r1 : V3
  r2 : V3
deriving DecidableEq

/-- Matrix–vector product. -/
def Mat3.mulV (m : Mat3) (v : V3) : V3 :=
  ⟨m.r0.x * v.x + m.r0.y * v.y + m.r0.z * v.z,
   m.r1.x * v.x + m.r1.y * v.y + m.r1.z * v.z,
   m.r2.x * v.x + m.r2.y * v.y + m.r2.z * v.z⟩

/-- The identity rotation. -/
def Mat3.id : Mat3 := ⟨⟨1, 0, 0⟩, ⟨0, 1, 0⟩, ⟨0, 0, 1⟩⟩

/-- Configuration fields of `PX4Gyroscope` that the pipeline reads.
`rot` stands for the single rotation used both by `rotate_3f(_rotation, …)`
and by `_rotation_dcm` (they are built from the same `Rotation` enum). -/
structure Config where
  rot : Mat3
  scale : ℚ
  calibration_offset : V3
  clip_limit : ℚ
  integrator_reset_samples : ℕ
deriving DecidableEq

/-- The mutable integration / clip-counting state of `PX4Gyroscope`. -/
structure State where
  clipping0 : ℕ
  clipping1 : ℕ
  clipping2 : ℕ
  integrator_samples : ℕ
  integrator_fifo_samples : ℕ
  integration_raw : V3
  integrator_clipping : ℕ
  last_sample0 : ℤ
  last_sample1 : ℤ
  last_sample2 : ℤ
  timestamp_sample_prev : ℕ
deriving DecidableEq

/-- The zero-initialised state of a fresh instance. -/
def State.init : State :=
  { clipping0 := 0, clipping1 := 0, clipping2 := 0
    integrator_samples := 0, integrator_fifo_samples := 0
    integration_raw := V3.zero, integrator_clipping := 0
    last_sample0 := 0, last_sample1 := 0, last_sample2 := 0
    timestamp_sample_prev := 0 }

/-- `PX4Gyroscope::FIFOSample`: first-sample timestamp (µs), inter-sample
interval `dt` (µs, a float), sample count `N`, and the raw `int16` arrays. -/
structure FIFOSample where
  timestamp_sample : ℕ
  dt : ℚ
  samples : ℕ
  x : List ℤ
  y : List ℤ
  z : List ℤ
deriving DecidableEq

/-- The claim-relevant fields of a published `sensor_gyro_s` report. -/
structure SensorReport where
  timestamp_sample : ℕ
  x : ℚ
  y : ℚ
  z : ℚ
deriving DecidableEq

/-- The claim-relevant fields of a published `sensor_gyro_integrated_s`
report. -/
structure IntegratedReport where
  timestamp_sample : ℕ
  delta_angle : V3
  dt : ℚ
  samples : ℕ
  clip_count : ℕ
deriving DecidableEq

/-- A publication made during one call. -/
inductive Report where
  | sensor (r : SensorReport)
  | integrated (r : IntegratedReport)
deriving DecidableEq

/-- The `sensor_gyro_s` reports among a call's publications. -/
def sensorReports : List Report → List SensorReport
  | [] => []
  | .sensor r :: rest => r :: sensorReports rest
  | .integrated _ :: rest => sensorReports rest

/-- The `sensor_gyro_integrated_s` reports among a call's publications. -/
def integratedReports : List Report → List IntegratedReport
  | [] => []
  | .sensor _ :: rest => integratedReports rest
  | .integrated r :: rest => r :: integratedReports rest

/-- `static sum(samples, len)`: the `int32` sum of the first `len`
entries. -/
def sumN (l : List ℤ) (len : ℕ) : ℤ := (l.take len).sum

/-- Truncation of a rational toward zero (C float → integer conversion). -/
def ratTrunc (q : ℚ) : ℤ := if 0 ≤ q then ⌊q⌋ else ⌈q⌉

/-- The implicit `float → int16_t` conversion at the `clipping(…)` call
site.  ISO C leaves the conversion undefined when the value is out of
`int16` range; the target hardware saturates, which is what we model. -/
def toInt16 (q : ℚ) : ℤ := max (-32768) (min 32767 (ratTrunc q))

/-- `static clipping(samples, clip_limit, len)`: how many of the first
`len` raw samples satisfy `abs(samples[n]) >= clip_limit`. -/
def clippingCount (l : List ℤ) (clip_limit : ℤ) (len : ℕ) : ℕ :=
  ((l.take len).filter (fun v => decide (clip_limit ≤ |v|))).length

/-- The batch-path stale-sample test (`updateFIFO`, lines 244–245):
`ts > prev && (ts - prev) > N * dt * 2.0f`.  The subtraction is on
unsigned timestamps but is only evaluated under the `ts > prev` guard. -/
def gapResetB (N : ℕ) (dt : ℚ) (ts prev : ℕ) : Bool :=
  decide (prev < ts) && decide ((N : ℚ) * dt * 2 < ((ts - prev : ℕ) : ℚ))

/-- `PX4Gyroscope::ResetIntegrator` (lines 344–352): zeroes the window
counters, the accumulation vector, the window clip counter and the
previous timestamp together.  The lifetime `_clipping` counters and
`_last_sample` are untouched. -/
def ResetIntegrator (s : State) : State :=
  { s with
    integrator_samples := 0
    integrator_fifo_samples := 0
    integration_raw := V3.zero
    integrator_clipping := 0
    timestamp_sample_prev := 0 }

/-- `PX4Gyroscope::update` (single-sample path, lines 132–196).
`putRes` is the external integrator's answer to `_integrator.put`:
`none` when not ready, `some (delta_angle, integral_dt)` when a window
completed. -/
def update (cfg : Config) (s : State) (timestamp_sample : ℕ) (v : V3)
    (putRes : Option (V3 × ℕ)) : State × List Report :=
  -- Apply rotation (before scaling)
  let raw := cfg.rot.mulV v
  -- Clipping (checked on the rotated, unscaled values, strict >)
  let c0 : ℕ := if cfg.clip_limit < |raw.x| then 1 else 0
  let c1 : ℕ := if cfg.clip_limit < |raw.y| then 1 else 0
  let c2 : ℕ := if cfg.clip_limit < |raw.z| then 1 else 0
  let s1 : State :=
    { s with
      clipping0 := s.clipping0 + c0
      clipping1 := s.clipping1 + c1
      clipping2 := s.clipping2 + c2
      integrator_clipping := s.integrator_clipping + c0 + c1 + c2 }
  -- Apply range scale and the calibration offset
  let val_calibrated := (raw.smul cfg.scale).sub cfg.calibration_offset
  -- publish raw data immediately
  let rep1 : Report :=
    .sensor ⟨timestamp_sample, val_calibrated.x, val_calibrated.y, val_calibrated.z⟩
  let s2 : State := { s1 with integrator_samples := s1.integrator_samples + 1 }
  match putRes with
  | none => (s2, [rep1])
  | some (delta_angle, integral_dt) =>
      let rep2 : Report :=
        .integrated ⟨timestamp_sample, delta_angle, (integral_dt : ℚ),
          s2.integrator_samples, s2.integrator_clipping⟩
      (ResetIntegrator s2, [rep1, rep2])

/-- `PX4Gyroscope::updateFIFO` (batch path, lines 198–318).

For `N = 0` the C code is out of bounds: `sample.x[N-1]` reads `x[-1]`
(modelled as `getD 0`, index clamped) and `sum(sample.x, N-1)` receives
`255` through the `uint8_t` length parameter (modelled by `(N+255) % 256`,
which equals `N-1` for every well-formed `N ≥ 1`).  No theorem below uses
the affected fields at `N = 0`. -/
def updateFIFO (cfg : Config) (s : State) (b : FIFOSample) :
    State × List Report :=
  let N := b.samples
  let dt := b.dt
  -- publish raw data immediately: average, rotate, scale and offset
  let avg : V3 := ⟨(sumN b.x N : ℚ) / (N : ℚ), (sumN b.y N : ℚ) / (N : ℚ),
    (sumN b.z N : ℚ) / (N : ℚ)⟩
  let rotated := cfg.rot.mulV avg
  let val_calibrated := (rotated.smul cfg.scale).sub cfg.calibration_offset
  let rep1 : Report :=
    .sensor ⟨b.timestamp_sample, val_calibrated.x, val_calibrated.y, val_calibrated.z⟩
  -- clipping (on the raw, unrotated int16 samples; _clip_limit is
  -- implicitly converted to int16_t at the call)
  let lim := toInt16 cfg.clip_limit
  let clip_count_x := clippingCount b.x lim N
  let clip_count_y := clippingCount b.y lim N
  let clip_count_z := clippingCount b.z lim N
  let s1 : State :=
    { s with
      clipping0 := s.clipping0 + clip_count_x
      clipping1 := s.clipping1 + clip_count_y
      clipping2 := s.clipping2 + clip_count_z
      integrator_clipping :=
        s.integrator_clipping + (clip_count_x + clip_count_y + clip_count_z) }
  -- reset integrator if previous sample was too long ago
  let s2 : State :=
    if gapResetB N dt b.timestamp_sample s1.timestamp_sample_prev then
      ResetIntegrator s1
    else s1
  -- integrate
  let s3 : State :=
    { s2 with
      integrator_samples := s2.integrator_samples + 1
      integrator_fifo_samples := s2.integrator_fifo_samples + N }
  -- trapezoidal integration (equally spaced, scaled by dt later)
  let contrib : V3 :=
    ⟨(1/2 : ℚ) * ((s3.last_sample0 + b.x.getD (N - 1) 0 : ℤ) : ℚ)
        + (sumN b.x ((N + 255) % 256) : ℚ),
     (1/2 : ℚ) * ((s3.last_sample1 + b.y.getD (N - 1) 0 : ℤ) : ℚ)
        + (sumN b.y ((N + 255) % 256) : ℚ),
     (1/2 : ℚ) * ((s3.last_sample2 + b.z.getD (N - 1) 0 : ℤ) : ℚ)
        + (sumN b.z ((N + 255) % 256) : ℚ)⟩
  let s4 : State :=
    { s3 with
      integration_raw := s3.integration_raw.add contrib
      last_sample0 := b.x.getD (N - 1) 0
      last_sample1 := b.y.getD (N - 1) 0
      last_sample2 := b.z.getD (N - 1) 0 }
  if 0 < s4.integrator_fifo_samples ∧
      cfg.integrator_reset_samples ≤ s4.integrator_samples then
    -- Apply rotation and scale; offset scaled to sample count
    let delta_angle_uncalibrated := (cfg.rot.mulV s4.integration_raw).smul cfg.scale
    let offset := cfg.calibration_offset.smul (s4.integrator_fifo_samples : ℚ)
    let delta_angle := (delta_angle_uncalibrated.sub offset).smul ((1/1000000 : ℚ) * dt)
    let rep2 : Report :=
      .integrated ⟨b.timestamp_sample, delta_angle,
        (s4.integrator_fifo_samples : ℚ) * dt,
        s4.integrator_fifo_samples, s4.integrator_clipping⟩
    let s5 := ResetIntegrator s4
    ({ s5 with timestamp_sample_prev := b.timestamp_sample }, [rep1, rep2])
  else
    ({ s4 with timestamp_sample_prev := b.timestamp_sample }, [rep1])

/-- The trapezoidal contribution of one batch, written with the
`N - 1` bounds the source's comments and the spec describe:
`0.5*(last_sample + sample[N-1]) + sum(sample[0..N-1))` per axis.  For a
well-formed batch (`1 ≤ N ≤ 255`) this equals the term `updateFIFO`
accumulates (whose length argument goes through a `uint8_t` conversion). -/
def trapContrib (s : State) (b : FIFOSample) : V3 :=
  ⟨(1/2 : ℚ) * ((s.last_sample0 + b.x.getD (b.samples - 1) 0 : ℤ) : ℚ)
      + (sumN b.x (b.samples - 1) : ℚ),
   (1/2 : ℚ) * ((s.last_sample1 + b.y.getD (b.samples - 1) 0 : ℤ) : ℚ)
      + (sumN b.y (b.samples - 1) : ℚ),
   (1/2 : ℚ) * ((s.last_sample2 + b.z.getD (b.samples - 1) 0 : ℤ) : ℚ)
      + (sumN b.z (b.samples - 1) : ℚ)⟩

/-- The calibration applied to a (single or averaged) raw triplet:
rotate first, then `raw_rotated * scale − offset`. -/
def calibrate (cfg : Config) (v : V3) : V3 :=
  ((cfg.rot.mulV v).smul cfg.scale).sub cfg.calibration_offset

/-- The arithmetic mean triplet of a batch, as `updateFIFO` computes it:
`(float)sum(sample.x, N) / (float)N` per axis. -/
def batchMean (b : FIFOSample) : V3 :=
  ⟨(sumN b.x b.samples : ℚ) / (b.samples : ℚ),
   (sumN b.y b.samples : ℚ) / (b.samples : ℚ),
   (sumN b.z b.samples : ℚ) / (b.samples : ℚ)⟩

/-- One driver call: either entry point of the core. -/
inductive Ev where
  | single (ts : ℕ) (v : V3) (putRes : Option (V3 × ℕ))
  | fifo (b : FIFOSample)
deriving DecidableEq

/-- Dispatch one call. -/
def step (cfg : Config) (s : State) (e : Ev) : State × List Report :=
  match e with
  | .single ts v pr => update cfg s ts v pr
  | .fifo b => updateFIFO cfg s b

/-- Run a sequence of calls, keeping only the final state. -/
def runEvents (cfg : Config) (s : State) : List Ev → State
  | [] => s
  | e :: rest => runEvents cfg (step cfg s e).1 rest

/-! Spec-side definitions.

These follow the *claims'* wording (not the source) and exist only to be
compared against the source-derived definitions above. -/

/-- Spec-side (claim C2): the batch's raw triplets rotated by the rotation
matrix, sample by sample. -/
def specRotatedSamples (m : Mat3) (b : FIFOSample) : List V3 :=
  (List.range b.samples).map fun k =>
    m.mulV ⟨(b.x.getD k 0 : ℚ), (b.y.getD k 0 : ℚ), (b.z.getD k 0 : ℚ)⟩

/-- Spec-side (claim C2): the trapezoidal contribution
`0.5*(last_sample + sample[N-1]) + sum(sample[0..N-1))` computed on a list
of (per the claim, rotated) samples. -/
def specTrapContrib (last : V3) (samps : List V3) : V3 :=
  let n := samps.length
  V3.add ((V3.add last (samps.getD (n - 1) V3.zero)).smul (1/2 : ℚ))
    ((samps.take (n - 1)).foldl V3.add V3.zero)

/-- Spec-side (claim C3): gap reset condition worded as
`prev_timestamp ≠ 0 ∧ (timestamp_of_first_sample − prev_timestamp) > 2·N·dt`. -/
def specGapB (N : ℕ) (dt : ℚ) (ts prev : ℕ) : Bool :=
  decide (prev ≠ 0) && decide ((N : ℚ) * dt * 2 < (ts : ℚ) - (prev : ℚ))

/-- Spec-side (claim C4): per-sample clip increment evaluated on the
pre-rotation raw triplet, with a meets-or-exceeds comparison. -/
def specClipInc (lim : ℚ) (v : ℚ) : ℕ := if lim ≤ |v| then 1 else 0

/-! IEEE float domain for `UpdateClipLimit`.

`UpdateClipLimit` divides by `_scale`; with `_scale == 0` IEEE-754
produces `±inf` or `NaN`, which `ℚ` cannot represent.  This miniature
domain follows the float semantics of exactly the operations that
function performs. -/

/-- A float value: finite (exact rational), an infinity, or NaN. -/
inductive FVal where
  | fin (q : ℚ)
  | inf
  | neginf
  | nan
deriving DecidableEq

/-- IEEE division for the cases reachable from `UpdateClipLimit`. -/
def FVal.fdiv : FVal → FVal → FVal
  | .fin a, .fin b =>
      if b = 0 then (if 0 < a then .inf else if a < 0 then .neginf else .nan)
      else .fin (a / b)
  | .fin _, .inf => .fin 0
  | .fin _, .neginf => .fin 0
  | .inf, .fin b => if 0 ≤ b then .inf else .neginf
  | .neginf, .fin b => if 0 ≤ b then .neginf else .inf
  | _, _ => .nan

/-- IEEE multiplication. -/
def FVal.fmul : FVal → FVal → FVal
  | .fin a, .fin b => .fin (a * b)
  | .fin a, .inf => if 0 < a then .inf else if a < 0 then .neginf else .nan
  | .inf, .fin b => if 0 < b then .inf else if b < 0 then .neginf else .nan
  | .fin a, .neginf => if 0 < a then .neginf else if a < 0 then .inf else .nan
  | .neginf, .fin b => if 0 < b then .neginf else if b < 0 then .inf else .nan
  | .inf, .inf => .inf
  | .neginf, .neginf => .inf
  | .inf, .neginf => .neginf
  | .neginf, .inf => .neginf
  | _, _ => .nan

/-- C99 `fmaxf`: a NaN operand yields the other operand, otherwise the
larger value. -/
def FVal.fmaxf : FVal → FVal → FVal
  | .nan, b => b
  | a, .nan => a
  | .inf, _ => .inf
  | _, .inf => .inf
  | .neginf, b => b
  | a, .neginf => a
  | .fin a, .fin b => .fin (max a b)

/-- `PX4Gyroscope::UpdateClipLimit` (lines 354–358) at IEEE float level:
`_clip_limit = fmaxf((_range / _scale) * 0.999f, INT16_MAX)`. -/
def UpdateClipLimit (range scale : FVal) : FVal :=
  FVal.fmaxf (FVal.fmul (FVal.fdiv range scale) (FVal.fin (999/1000)))
    (FVal.fin 32767)

/-! Concrete fixtures used below. -/

/-- Identity rotation, unit scale, zero offset, clip limit at `INT16_MAX`,
flush after 1 accumulated call. -/
def cfgFlush1 : Config := ⟨Mat3.id, 1, V3.zero, 32767, 1⟩

/-- Identity rotation, flush after 2 accumulated calls. -/
def cfgFlush2 : Config := ⟨Mat3.id, 1, V3.zero, 32767, 2⟩

/-- Identity rotation, flush threshold high enough to never fire in the
scenarios below. -/
def cfgSlow : Config := ⟨Mat3.id, 1, V3.zero, 32767, 10⟩

/-- A 90° permutation rotation (swap of the x and y axes), flush
threshold high. -/
def cfgSwap : Config := ⟨⟨⟨0, 1, 0⟩, ⟨1, 0, 0⟩, ⟨0, 0, 1⟩⟩, 1, V3.zero, 32767, 10⟩

/-- Single-sample batch, in gap range of a zero previous timestamp. -/
def batchA : FIFOSample := ⟨1000, 1000, 1, [5], [7], [0]⟩

/-- Single-sample zero batch arriving a full second after start. -/
def batchGap : FIFOSample := ⟨1000000, 1000, 1, [0], [0], [0]⟩

/-- Two-sample batch (used to separate first-sample and last-sample
timestamps). -/
def batchTwo : FIFOSample := ⟨10000, 1000, 2, [1, 1], [0, 0], [0, 0]⟩

/-- A degenerate batch with `N = 0`. -/
def batchEmpty : FIFOSample := ⟨1000, 1000, 0, [], [], []⟩

/-- Single-sample batch whose x value sits exactly at the clip limit. -/
def batchClip : FIFOSample := ⟨1000, 1000, 1, [32767], [0], [0]⟩

/-- Quiet single-sample batch. -/
def batchQuiet : FIFOSample := ⟨1000, 1000, 1, [2], [0], [0]⟩

/-! Shared helper lemmas. -/

lemma update_clip_mono (cfg : Config) (s : State) (ts : ℕ) (v : V3)
    (pr : Option (V3 × ℕ)) :
    s.clipping0 ≤ (update cfg s ts v pr).1.clipping0
    ∧ s.clipping1 ≤ (update cfg s ts v pr).1.clipping1
    ∧ s.clipping2 ≤ (update cfg s ts v pr).1.clipping2 := by
  rcases pr with - | ⟨da, idt⟩ <;> simp [update, ResetIntegrator]

lemma updateFIFO_clip_mono (cfg : Config) (s : State) (b : FIFOSample) :
    s.clipping0 ≤ (updateFIFO cfg s b).1.clipping0
    ∧ s.clipping1 ≤ (updateFIFO cfg s b).1.clipping1
    ∧ s.clipping2 ≤ (updateFIFO cfg s b).1.clipping2 := by
  simp only [updateFIFO]
  split <;> split <;> simp [ResetIntegrator]

lemma step_clip_mono (cfg : Config) (s : State) (e : Ev) :
    s.clipping0 ≤ (step cfg s e).1.clipping0
    ∧ s.clipping1 ≤ (step cfg s e).1.clipping1
    ∧ s.clipping2 ≤ (step cfg s e).1.clipping2 := by
  cases e with
  | single ts v pr => exact update_clip_mono cfg s ts v pr
  | fifo b => exact updateFIFO_clip_mono cfg s b

lemma updateFIFO_report_or_quiet (cfg : Config) (s : State) (b : FIFOSample) :
    integratedReports (updateFIFO cfg s b).2 = []
    ∨ (updateFIFO cfg s b).1.integrator_clipping = 0 := by
  simp only [updateFIFO]
  split <;> split
  · right; simp [ResetIntegrator]
  · left; simp [integratedReports]
  · right; simp [ResetIntegrator]
  · left; simp [integratedReports]

/-- C1: on the batch path, once the running call count reaches
`integrator_reset_samples` (and no gap reset interfered), `updateFIFO`
emits exactly one `sensor_gyro_integrated_s` report whose `delta_angle`
is `(rotation · raw_sum · scale − offset × fifo_samples) · (1e-6 · dt)`
and whose `dt` field is `fifo_samples × dt`, and then resets the
accumulation vector, both window counters and the window clip counter to
zero; `ResetIntegrator` zeroes those fields and `timestamp_sample_prev`
together. -/
theorem updateFIFO_flush (cfg : Config) (s : State) (b : FIFOSample)
    (hN : 1 ≤ b.samples) (hN255 : b.samples ≤ 255)
    (hgap : gapResetB b.samples b.dt b.timestamp_sample s.timestamp_sample_prev = false)
    (hcount : cfg.integrator_reset_samples ≤ s.integrator_samples + 1) :
    integratedReports (updateFIFO cfg s b).2 =
      [⟨b.timestamp_sample,
        (((cfg.rot.mulV (s.integration_raw.add (trapContrib s b))).smul cfg.scale).sub
            (cfg.calibration_offset.smul
              ((s.integrator_fifo_samples + b.samples : ℕ) : ℚ))).smul
          ((1/1000000 : ℚ) * b.dt),
        ((s.integrator_fifo_samples + b.samples : ℕ) : ℚ) * b.dt,
        s.integrator_fifo_samples + b.samples,
        s.integrator_clipping +
          (clippingCount b.x (toInt16 cfg.clip_limit) b.samples +
           clippingCount b.y (toInt16 cfg.clip_limit) b.samples +
           clippingCount b.z (toInt16 cfg.clip_limit) b.samples)⟩]
    ∧ (updateFIFO cfg s b).1.integration_raw = V3.zero
    ∧ (updateFIFO cfg s b).1.integrator_samples = 0
    ∧ (updateFIFO cfg s b).1.integrator_fifo_samples = 0
    ∧ (updateFIFO cfg s b).1.integrator_clipping = 0
    ∧ (∀ t : State, (ResetIntegrator t).integration_raw = V3.zero
        ∧ (ResetIntegrator t).integrator_samples = 0
        ∧ (ResetIntegrator t).integrator_fifo_samples = 0
        ∧ (ResetIntegrator t).integrator_clipping = 0
        ∧ (ResetIntegrator t).timestamp_sample_prev = 0) := by
  have hmod : (b.samples + 255) % 256 = b.samples - 1 := by omega
  simp only [updateFIFO, hgap, Bool.false_eq_true, if_false, hmod]
  rw [if_pos (by constructor <;> omega)]
  refine ⟨?_, ?_, ?_, ?_, ?_, ?_⟩
  · simp [integratedReports, trapContrib]
  · simp [ResetIntegrator]
  · simp [ResetIntegrator]
  · simp [ResetIntegrator]
  · simp [ResetIntegrator]
  · intro t; simp [ResetIntegrator]

/-- C1 witness: a concrete flush (threshold 1, quiet one-sample batch)
leaves the window call counter at zero. -/
theorem updateFIFO_flush_witness :
    (updateFIFO cfgFlush1 State.init batchQuiet).1.integrator_samples = 0 :=
  (updateFIFO_flush cfgFlush1 State.init batchQuiet (by norm_num [batchQuiet])
    (by norm_num [batchQuiet])
    (by norm_num [gapResetB, batchQuiet, State.init])
    (by norm_num [cfgFlush1, State.init])).2.2.1

/-- C2 counterexample: with a swap rotation the running sum receives the
unrotated raw contribution `(5/2, 7/2, 0)`, not the rotated contribution
`(7/2, 5/2, 0)` that the claim ("computed on rotated-but-uncalibrated raw
values") predicts. -/
theorem updateFIFO_accum_not_rotated :
    (updateFIFO cfgSwap State.init batchA).1.integration_raw = ⟨5/2, 7/2, 0⟩
    ∧ specTrapContrib V3.zero (specRotatedSamples cfgSwap.rot batchA) = ⟨7/2, 5/2, 0⟩
    ∧ (⟨5/2, 7/2, 0⟩ : V3) ≠ ⟨7/2, 5/2, 0⟩ := by
  refine ⟨?_, ?_, ?_⟩
  · norm_num [updateFIFO, cfgSwap, batchA, State.init, gapResetB, ResetIntegrator, sumN,
      clippingCount, toInt16, ratTrunc, V3.add, V3.zero, V3.sub, V3.smul, Mat3.mulV]
  · norm_num [specTrapContrib, specRotatedSamples, cfgSwap, batchA, V3.add, V3.zero, V3.smul,
      Mat3.mulV, List.range_succ]
  · intro h
    have := congrArg V3.x h
    norm_num at this

/-- C2 (amended): the per-batch trapezoidal contribution
`0.5*(last_sample + sample[N-1]) + sum(sample[0..N-1))` is computed on the
raw, unrotated samples (rotation is applied to the whole sum at flush
time), and `last_sample` is updated to the raw `sample[N-1]`. -/
theorem updateFIFO_trapezoid_raw (cfg : Config) (s : State) (b : FIFOSample)
    (hN : 1 ≤ b.samples) (hN255 : b.samples ≤ 255)
    (hgap : gapResetB b.samples b.dt b.timestamp_sample s.timestamp_sample_prev = false)
    (hnoflush : s.integrator_samples + 1 < cfg.integrator_reset_samples) :
    (updateFIFO cfg s b).1.integration_raw = s.integration_raw.add (trapContrib s b)
    ∧ (updateFIFO cfg s b).1.last_sample0 = b.x.getD (b.samples - 1) 0
    ∧ (updateFIFO cfg s b).1.last_sample1 = b.y.getD (b.samples - 1) 0
    ∧ (updateFIFO cfg s b).1.last_sample2 = b.z.getD (b.samples - 1) 0 := by
  have hmod : (b.samples + 255) % 256 = b.samples - 1 := by omega
  simp only [updateFIFO, hgap, Bool.false_eq_true, if_false, hmod]
  rw [if_neg (by rintro ⟨-, h⟩; omega)]
  simp [trapContrib]

/-- C2 witness: a concrete non-flushing batch accumulates exactly the
trapezoidal contribution. -/
theorem updateFIFO_trapezoid_raw_witness :
    (updateFIFO cfgSlow State.init batchQuiet).1.integration_raw =
      State.init.integration_raw.add (trapContrib State.init batchQuiet) :=
  (updateFIFO_trapezoid_raw cfgSlow State.init batchQuiet (by norm_num [batchQuiet])
    (by norm_num [batchQuiet])
    (by norm_num [gapResetB, batchQuiet, State.init])
    (by norm_num [cfgSlow, State.init])).1

/-- C3 counterexample: from a reachable state with one accumulated call
and `timestamp_sample_prev = 0`, a late batch triggers the code gap reset
(call counter restarts at 1 instead of advancing to 2) even though the
condition claimed ("prev_timestamp != 0 and …") is false. -/
theorem gap_check_fires_with_zero_prev :
    (update cfgSlow State.init 100 ⟨0, 0, 0⟩ none).1.integrator_samples = 1
    ∧ (update cfgSlow State.init 100 ⟨0, 0, 0⟩ none).1.timestamp_sample_prev = 0
    ∧ specGapB 1 1000 1000000 0 = false
    ∧ gapResetB 1 1000 1000000 0 = true
    ∧ (updateFIFO cfgSlow (update cfgSlow State.init 100 ⟨0, 0, 0⟩ none).1 batchGap).1.integrator_samples = 1
    ∧ (updateFIFO cfgSlow (update cfgSlow State.init 100 ⟨0, 0, 0⟩ none).1 batchGap).1.integrator_samples ≠ 2 := by
  refine ⟨?_, ?_, ?_, ?_, ?_, ?_⟩ <;>
    norm_num [update, updateFIFO, cfgSlow, batchGap, State.init, gapResetB, specGapB,
      ResetIntegrator, sumN, clippingCount, toInt16, ratTrunc, V3.add, V3.zero, V3.sub,
      V3.smul, Mat3.mulV]

/-- C3 (amended): the silent gap reset fires exactly on the code
condition `ts > prev ∧ ts − prev > 2·N·dt` (which includes `prev = 0`
with a large `ts`): when it fires, the call behaves as if started from a
fully reset state (accumulation restarts from the current batch) and the
reset boundary itself emits no integrated report; when it does not fire
and no flush is due, the call counter simply advances. -/
theorem updateFIFO_gap_restart (cfg : Config) (s : State) (b : FIFOSample) :
    (gapResetB b.samples b.dt b.timestamp_sample s.timestamp_sample_prev = true →
      updateFIFO cfg s b = updateFIFO cfg (ResetIntegrator s) b
      ∧ (1 < cfg.integrator_reset_samples →
          integratedReports (updateFIFO cfg s b).2 = []))
    ∧ (gapResetB b.samples b.dt b.timestamp_sample s.timestamp_sample_prev = false →
        (updateFIFO cfg s b).1.integrator_samples = s.integrator_samples + 1
        ∨ cfg.integrator_reset_samples ≤ s.integrator_samples + 1) := by
  constructor
  · intro hgap
    have hparts : s.timestamp_sample_prev < b.timestamp_sample ∧
        (b.samples : ℚ) * b.dt * 2 <
          ((b.timestamp_sample - s.timestamp_sample_prev : ℕ) : ℚ) := by
      simpa [gapResetB, Bool.and_eq_true, decide_eq_true_eq] using hgap
    have hgap0 : gapResetB b.samples b.dt b.timestamp_sample 0 = true := by
      simp only [gapResetB, Bool.and_eq_true, decide_eq_true_eq]
      refine ⟨by omega, lt_of_lt_of_le hparts.2 ?_⟩
      have hle : b.timestamp_sample - s.timestamp_sample_prev ≤ b.timestamp_sample - 0 :=
        by omega
      exact_mod_cast Nat.cast_le.mpr hle
    constructor
    · simp [updateFIFO, ResetIntegrator, hgap, hgap0]
    · intro hreset1
      simp only [updateFIFO, hgap, if_true]
      rw [if_neg (by rintro ⟨-, h⟩; simp [ResetIntegrator] at h; omega)]
      simp [integratedReports]
  · intro hgap
    by_cases hfl : cfg.integrator_reset_samples ≤ s.integrator_samples + 1
    · exact Or.inr hfl
    · left
      simp only [updateFIFO, hgap, Bool.false_eq_true, if_false]
      rw [if_neg (by rintro ⟨-, h⟩; omega)]

/-- C3 witness: the gap branch at a concrete late batch equals a restart
from the reset state, and a quiet batch advances the counter. -/
theorem updateFIFO_gap_restart_witness :
    updateFIFO cfgSlow State.init batchGap =
      updateFIFO cfgSlow (ResetIntegrator State.init) batchGap
    ∧ ((updateFIFO cfgSlow State.init batchQuiet).1.integrator_samples =
          State.init.integrator_samples + 1
        ∨ cfgSlow.integrator_reset_samples ≤ State.init.integrator_samples + 1) :=
  ⟨((updateFIFO_gap_restart cfgSlow State.init batchGap).1
      (by norm_num [gapResetB, batchGap, State.init])).1,
   (updateFIFO_gap_restart cfgSlow State.init batchQuiet).2
      (by norm_num [gapResetB, batchQuiet, State.init])⟩

/-- C4 counterexample: a sample sitting exactly at the clip limit is
counted by the batch path (`>=`, pre-rotation) but not by the
single-sample path (`>`, post-rotation); with a swap rotation the single
path even books the clip on the wrong axis relative to the claim. -/
theorem clipping_meets_limit_diverges :
    (32767 : ℚ) ≤ |(32767 : ℚ)|
    ∧ (update cfgSlow State.init 0 ⟨32767, 0, 0⟩ none).1.clipping0 = 0
    ∧ specClipInc cfgSlow.clip_limit 32767 = 1
    ∧ (updateFIFO cfgSlow State.init batchClip).1.clipping0 = 1
    ∧ (update cfgSwap State.init 0 ⟨40000, 0, 0⟩ none).1.clipping0 = 0
    ∧ (update cfgSwap State.init 0 ⟨40000, 0, 0⟩ none).1.clipping1 = 1 := by
  refine ⟨by norm_num, ?_, ?_, ?_, ?_, ?_⟩ <;>
    norm_num [update, updateFIFO, cfgSlow, cfgSwap, batchClip, State.init, gapResetB,
      specClipInc, ResetIntegrator, sumN, clippingCount, toInt16, ratTrunc, V3.add, V3.zero,
      V3.sub, V3.smul, Mat3.mulV, Mat3.id]

/-- C4 (amended): both paths use the same `_clip_limit` and the same
counters, but the batch path counts raw pre-rotation samples with
`|v| ≥ clip_limit` (threshold converted to `int16`), while the
single-sample path counts rotated values with `|v| > clip_limit`;
each detection adds one to the axis lifetime counter and to the shared
window clip counter. -/
theorem clipping_path_behavior (cfg : Config) :
    (∀ (s : State) (b : FIFOSample),
      (updateFIFO cfg s b).1.clipping0 =
          s.clipping0 + clippingCount b.x (toInt16 cfg.clip_limit) b.samples
      ∧ (updateFIFO cfg s b).1.clipping1 =
          s.clipping1 + clippingCount b.y (toInt16 cfg.clip_limit) b.samples
      ∧ (updateFIFO cfg s b).1.clipping2 =
          s.clipping2 + clippingCount b.z (toInt16 cfg.clip_limit) b.samples)
    ∧ (∀ (s : State) (ts : ℕ) (v : V3) (pr : Option (V3 × ℕ)),
      (update cfg s ts v pr).1.clipping0 =
          s.clipping0 + (if cfg.clip_limit < |(cfg.rot.mulV v).x| then 1 else 0)
      ∧ (update cfg s ts v pr).1.clipping1 =
          s.clipping1 + (if cfg.clip_limit < |(cfg.rot.mulV v).y| then 1 else 0)
      ∧ (update cfg s ts v pr).1.clipping2 =
          s.clipping2 + (if cfg.clip_limit < |(cfg.rot.mulV v).z| then 1 else 0))
    ∧ (∀ (s : State) (b : FIFOSample),
        gapResetB b.samples b.dt b.timestamp_sample s.timestamp_sample_prev = false →
        s.integrator_samples + 1 < cfg.integrator_reset_samples →
        (updateFIFO cfg s b).1.integrator_clipping =
          s.integrator_clipping + (clippingCount b.x (toInt16 cfg.clip_limit) b.samples
            + clippingCount b.y (toInt16 cfg.clip_limit) b.samples
            + clippingCount b.z (toInt16 cfg.clip_limit) b.samples))
    ∧ (∀ (s : State) (ts : ℕ) (v : V3),
        (update cfg s ts v none).1.integrator_clipping =
          s.integrator_clipping + (if cfg.clip_limit < |(cfg.rot.mulV v).x| then 1 else 0)
            + (if cfg.clip_limit < |(cfg.rot.mulV v).y| then 1 else 0)
            + (if cfg.clip_limit < |(cfg.rot.mulV v).z| then 1 else 0)) := by
  refine ⟨?_, ?_, ?_, ?_⟩
  · intro s b
    simp only [updateFIFO]
    split <;> split <;> simp [ResetIntegrator]
  · intro s ts v pr
    rcases pr with - | ⟨da, idt⟩ <;> simp [update, ResetIntegrator]
  · intro s b hgap hnoflush
    simp only [updateFIFO, hgap, Bool.false_eq_true, if_false]
    rw [if_neg (by rintro ⟨-, h⟩; omega)]
  · intro s ts v
    simp [update]

/-- C4 witness: concrete lifetime and window increments on both paths. -/
theorem clipping_path_behavior_witness :
    (updateFIFO cfgSlow State.init batchClip).1.clipping0 =
      State.init.clipping0 +
        clippingCount batchClip.x (toInt16 cfgSlow.clip_limit) batchClip.samples
    ∧ (updateFIFO cfgSlow State.init batchQuiet).1.integrator_clipping =
        State.init.integrator_clipping +
          (clippingCount batchQuiet.x (toInt16 cfgSlow.clip_limit) batchQuiet.samples
            + clippingCount batchQuiet.y (toInt16 cfgSlow.clip_limit) batchQuiet.samples
            + clippingCount batchQuiet.z (toInt16 cfgSlow.clip_limit) batchQuiet.samples) :=
  ⟨((clipping_path_behavior cfgSlow).1 State.init batchClip).1,
   (clipping_path_behavior cfgSlow).2.2.1 State.init batchQuiet
      (by norm_num [gapResetB, batchQuiet, State.init])
      (by norm_num [cfgSlow, State.init])⟩

/-- C5: a batch with `N = 0` is not rejected by the code: the window call
counter is still incremented (state is mutated) and a calibrated reading
is still published (the C code moreover divides `0/0` when averaging and
indexes the sample arrays out of bounds). -/
theorem updateFIFO_empty_batch_mutates :
    (updateFIFO cfgSlow State.init batchEmpty).1.integrator_samples = 1
    ∧ (updateFIFO cfgSlow State.init batchEmpty).1 ≠ State.init
    ∧ sensorReports (updateFIFO cfgSlow State.init batchEmpty).2 ≠ [] := by
  refine ⟨?_, ?_, ?_⟩
  · norm_num [updateFIFO, cfgSlow, batchEmpty, State.init, gapResetB, ResetIntegrator,
      sumN, clippingCount, toInt16, ratTrunc, V3.add, V3.zero, V3.sub, V3.smul, Mat3.mulV]
  · intro h
    have := congrArg State.integrator_samples h
    norm_num [updateFIFO, cfgSlow, batchEmpty, State.init, gapResetB, ResetIntegrator,
      sumN, clippingCount, toInt16, ratTrunc, V3.add, V3.zero, V3.sub, V3.smul,
      Mat3.mulV] at this
  · norm_num [updateFIFO, cfgSlow, batchEmpty, State.init, gapResetB, ResetIntegrator,
      sumN, clippingCount, toInt16, ratTrunc, V3.add, V3.zero, V3.sub, V3.smul, Mat3.mulV,
      sensorReports]

/-- C6: every call on either path publishes exactly one calibrated
reading, independent of the integrator state: rotate the raw triplet (for
a batch, the arithmetic mean of its `N` samples), then
`calibrated = raw_rotated * scale − offset`. -/
theorem calibrated_reading_always (cfg : Config) :
    (∀ (s : State) (ts : ℕ) (v : V3) (pr : Option (V3 × ℕ)),
      sensorReports (update cfg s ts v pr).2 =
        [⟨ts, (calibrate cfg v).x, (calibrate cfg v).y, (calibrate cfg v).z⟩])
    ∧ (∀ (s : State) (b : FIFOSample), 1 ≤ b.samples →
        sensorReports (updateFIFO cfg s b).2 =
        [⟨b.timestamp_sample, (calibrate cfg (batchMean b)).x,
          (calibrate cfg (batchMean b)).y, (calibrate cfg (batchMean b)).z⟩]) := by
  constructor
  · intro s ts v pr
    rcases pr with - | ⟨da, idt⟩ <;> simp [update, sensorReports, calibrate]
  · intro s b _hN
    simp only [updateFIFO]
    split <;> split <;> simp [sensorReports, calibrate, batchMean]

/-- C6 witness: the calibrated reading of a concrete quiet batch. -/
theorem calibrated_reading_always_witness :
    sensorReports (updateFIFO cfgSlow State.init batchQuiet).2 =
      [⟨batchQuiet.timestamp_sample, (calibrate cfgSlow (batchMean batchQuiet)).x,
        (calibrate cfgSlow (batchMean batchQuiet)).y,
        (calibrate cfgSlow (batchMean batchQuiet)).z⟩] :=
  (calibrated_reading_always cfgSlow).2 State.init batchQuiet (by norm_num [batchQuiet])

/-- C7 counterexample: a flushing two-sample batch (first-sample
timestamp 10000, `dt` 1000) leaves `timestamp_sample_prev = 10000`, not
the last-sample timestamp `10000 + (N−1)·dt = 11000` the claim states. -/
theorem flush_prev_timestamp_counterexample :
    integratedReports (updateFIFO cfgFlush1 State.init batchTwo).2 ≠ []
    ∧ (updateFIFO cfgFlush1 State.init batchTwo).1.timestamp_sample_prev = 10000
    ∧ (batchTwo.timestamp_sample : ℚ) + ((batchTwo.samples : ℚ) - 1) * batchTwo.dt = 11000
    ∧ (10000 : ℕ) ≠ 11000 := by
  refine ⟨?_, ?_, ?_, by norm_num⟩ <;>
    norm_num [updateFIFO, cfgFlush1, batchTwo, State.init, gapResetB, ResetIntegrator,
      sumN, clippingCount, toInt16, ratTrunc, V3.add, V3.zero, V3.sub, V3.smul, Mat3.mulV,
      Mat3.id, integratedReports]

/-- C7 (amended): after a batch-path flush the integration state is fully
reset and `timestamp_sample_prev` is advanced to the batch timestamp
(`timestamp_of_first_sample`), not to the last-sample timestamp. -/
theorem updateFIFO_flush_prev (cfg : Config) (s : State) (b : FIFOSample)
    (hN : 1 ≤ b.samples)
    (hgap : gapResetB b.samples b.dt b.timestamp_sample s.timestamp_sample_prev = false)
    (hcount : cfg.integrator_reset_samples ≤ s.integrator_samples + 1) :
    (updateFIFO cfg s b).1.timestamp_sample_prev = b.timestamp_sample
    ∧ (updateFIFO cfg s b).1.integrator_samples = 0
    ∧ (updateFIFO cfg s b).1.integrator_fifo_samples = 0
    ∧ (updateFIFO cfg s b).1.integration_raw = V3.zero
    ∧ (updateFIFO cfg s b).1.integrator_clipping = 0 := by
  simp only [updateFIFO, hgap, Bool.false_eq_true, if_false]
  rw [if_pos (by constructor <;> omega)]
  simp [ResetIntegrator]

/-- C7 witness: concrete flush advancing the previous timestamp to the
batch timestamp. -/
theorem updateFIFO_flush_prev_witness :
    (updateFIFO cfgFlush1 State.init batchQuiet).1.timestamp_sample_prev =
      batchQuiet.timestamp_sample :=
  (updateFIFO_flush_prev cfgFlush1 State.init batchQuiet (by norm_num [batchQuiet])
    (by norm_num [gapResetB, batchQuiet, State.init])
    (by norm_num [cfgFlush1, State.init])).1

/-- C8: over any sequence of calls the per-axis lifetime clip counters
never decrease (and no code path resets them), and any call that emits an
integrated report leaves the per-window clip counter at zero. -/
theorem clip_counters (cfg : Config) :
    (∀ (s : State) (evs : List Ev),
      s.clipping0 ≤ (runEvents cfg s evs).clipping0
      ∧ s.clipping1 ≤ (runEvents cfg s evs).clipping1
      ∧ s.clipping2 ≤ (runEvents cfg s evs).clipping2)
    ∧ (∀ (s : State) (e : Ev), integratedReports (step cfg s e).2 ≠ [] →
        (step cfg s e).1.integrator_clipping = 0) := by
  constructor
  · intro s evs
    induction evs generalizing s with
    | nil => simp [runEvents]
    | cons e rest ih =>
      have h1 := step_clip_mono cfg s e
      have h2 := ih (step cfg s e).1
      simp only [runEvents]
      exact ⟨le_trans h1.1 h2.1, le_trans h1.2.1 h2.2.1, le_trans h1.2.2 h2.2.2⟩
  · intro s e h
    cases e with
    | single ts v pr =>
      rcases pr with - | ⟨da, idt⟩
      · simp [step, update, integratedReports] at h
      · simp [step, update, ResetIntegrator]
    | fifo b =>
      rcases updateFIFO_report_or_quiet cfg s b with hq | hq
      · exact absurd hq h
      · exact hq

/-- C8 witness: concrete monotonicity over a one-event run, and a
concrete flushing step leaving the window clip counter at zero. -/
theorem clip_counters_witness :
    (State.init.clipping0 ≤ (runEvents cfgFlush1 State.init [Ev.fifo batchClip]).clipping0
      ∧ State.init.clipping1 ≤ (runEvents cfgFlush1 State.init [Ev.fifo batchClip]).clipping1
      ∧ State.init.clipping2 ≤ (runEvents cfgFlush1 State.init [Ev.fifo batchClip]).clipping2)
    ∧ (step cfgFlush1 State.init (Ev.fifo batchQuiet)).1.integrator_clipping = 0 :=
  ⟨(clip_counters cfgFlush1).1 State.init [Ev.fifo batchClip],
   (clip_counters cfgFlush1).2 State.init (Ev.fifo batchQuiet)
      (by norm_num [step, updateFIFO, cfgFlush1, batchQuiet, State.init, gapResetB,
        ResetIntegrator, sumN, clippingCount, toInt16, ratTrunc, V3.add, V3.zero, V3.sub,
        V3.smul, Mat3.mulV, Mat3.id, integratedReports])⟩

/-- C9: with `scale = 0` the clip-limit computation divides by zero at
IEEE float level: a positive range yields an infinite threshold, and a
zero range yields NaN which `fmaxf` collapses to the finite threshold
`32767` (at which clipping is still possible) — the division is not
guarded. -/
theorem UpdateClipLimit_zero_scale :
    UpdateClipLimit (.fin 2000) (.fin 0) = FVal.inf
    ∧ UpdateClipLimit (.fin 0) (.fin 0) = FVal.fin 32767 := by
  constructor <;> norm_num [UpdateClipLimit, FVal.fdiv, FVal.fmul, FVal.fmaxf]

/-- C10 counterexample: a single-sample call followed by a flushing batch
call shows the batch-path report carrying `samples = fifo_samples = 1`,
not the shared call counter value 2 that both paths incremented. -/
theorem shared_window_samples_counterexample :
    (update cfgFlush2 State.init 100 ⟨0, 0, 0⟩ none).1.integrator_samples = 1
    ∧ integratedReports
        (updateFIFO cfgFlush2 (update cfgFlush2 State.init 100 ⟨0, 0, 0⟩ none).1 batchQuiet).2 =
      [⟨1000, ⟨1/1000, 0, 0⟩, 1000, 1, 0⟩]
    ∧ (1 : ℕ) ≠ 1 + 1 := by
  refine ⟨?_, ?_, by norm_num⟩ <;>
    norm_num [update, updateFIFO, cfgFlush2, batchQuiet, State.init, gapResetB,
      ResetIntegrator, sumN, clippingCount, toInt16, ratTrunc, V3.add, V3.zero, V3.sub,
      V3.smul, Mat3.mulV, Mat3.id, integratedReports]

/-- C10 (amended): both entry points increment the shared window call
counter and window clip counter, and a flush on either path reports and
resets that shared state; the `clip_count` field of the next report (on
either path) includes contributions from both kinds of calls, but the
`samples` field of a batch-path report is `integrator_fifo_samples`,
which counts only raw samples delivered by batch calls, while a
single-path report carries the shared call counter. -/
theorem shared_window_state (cfg : Config) :
    (∀ (s : State) (ts : ℕ) (v : V3),
      (update cfg s ts v none).1.integrator_samples = s.integrator_samples + 1)
    ∧ (∀ (s : State) (b : FIFOSample),
        gapResetB b.samples b.dt b.timestamp_sample s.timestamp_sample_prev = false →
        s.integrator_samples + 1 < cfg.integrator_reset_samples →
        (updateFIFO cfg s b).1.integrator_samples = s.integrator_samples + 1)
    ∧ (∀ (s : State) (ts : ℕ) (v : V3) (da : V3) (idt : ℕ),
        integratedReports (update cfg s ts v (some (da, idt))).2 =
          [⟨ts, da, (idt : ℚ), s.integrator_samples + 1,
            s.integrator_clipping + (if cfg.clip_limit < |(cfg.rot.mulV v).x| then 1 else 0)
              + (if cfg.clip_limit < |(cfg.rot.mulV v).y| then 1 else 0)
              + (if cfg.clip_limit < |(cfg.rot.mulV v).z| then 1 else 0)⟩]
        ∧ (update cfg s ts v (some (da, idt))).1.integrator_samples = 0
        ∧ (update cfg s ts v (some (da, idt))).1.integrator_clipping = 0)
    ∧ (∀ (s : State) (b : FIFOSample), 1 ≤ b.samples →
        gapResetB b.samples b.dt b.timestamp_sample s.timestamp_sample_prev = false →
        cfg.integrator_reset_samples ≤ s.integrator_samples + 1 →
        (integratedReports (updateFIFO cfg s b).2).map
            (fun r => (r.samples, r.clip_count)) =
          [(s.integrator_fifo_samples + b.samples,
            s.integrator_clipping +
              (clippingCount b.x (toInt16 cfg.clip_limit) b.samples
                + clippingCount b.y (toInt16 cfg.clip_limit) b.samples
                + clippingCount b.z (toInt16 cfg.clip_limit) b.samples))]
          ∧ (updateFIFO cfg s b).1.integrator_samples = 0
          ∧ (updateFIFO cfg s b).1.integrator_clipping = 0) := by
  refine ⟨?_, ?_, ?_, ?_⟩
  · intro s ts v
    simp [update]
  · intro s b hgap hnoflush
    simp only [updateFIFO, hgap, Bool.false_eq_true, if_false]
    rw [if_neg (by rintro ⟨-, h⟩; omega)]
  · intro s ts v da idt
    simp [update, integratedReports, ResetIntegrator]
  · intro s b hN hgap hcount
    simp only [updateFIFO, hgap, Bool.false_eq_true, if_false]
    rw [if_pos (by constructor <;> omega)]
    exact ⟨by simp [integratedReports], by simp [ResetIntegrator], by simp [ResetIntegrator]⟩

/-- C10 witness: both paths advance the shared window call counter on
concrete inputs. -/
theorem shared_window_state_witness :
    (update cfgSlow State.init 100 ⟨0, 0, 0⟩ none).1.integrator_samples =
      State.init.integrator_samples + 1
    ∧ (updateFIFO cfgSlow State.init batchQuiet).1.integrator_samples =
        State.init.integrator_samples + 1 :=
  ⟨(shared_window_state cfgSlow).1 State.init 100 ⟨0, 0, 0⟩,
   (shared_window_state cfgSlow).2.1 State.init batchQuiet
      (by norm_num [gapResetB, batchQuiet, State.init])
      (by norm_num [cfgSlow, State.init])⟩

end PX4Gyro
